import Mathlib

/-!
# Verification of the sovm block-builder workflow engine

Shallow embedding of the retry / circuit-breaker layer (src/block-builder/src/retry.ts),
the workflow graph and its node functions (src/block-builder/src/workflow.ts and the
nodes module), and the state-persistence JSON round trip
(StatePersistence.saveState / loadState), together with proofs of the spec claims.
-/

namespace Sovm

/-! ## JavaScript error values

A thrown JS Error carries a name and a message; both are inspected by the
retryability classifier in retry.ts. -/

structure JsError where
  name : String
  message : String
  deriving DecidableEq, Repr

/-! ## Retry layer (retry.ts, retryWithBackoff and isRetryableError)

Delays are modelled as rationals (JS numbers used for millisecond delays).
The wrapped async function is modelled as a map from the attempt index to its
outcome; an execution trace records how many times the function was invoked,
the delays slept between consecutive attempts (in order), and the final result.
-/

structure RetryConfig where
  maxRetries : Nat
  initialDelay : ℚ
  maxDelay : ℚ
  backoffMultiplier : ℚ
  deriving Repr

structure RetryTrace (α : Type) where
  attempts : Nat
  sleeps : List ℚ
  result : Except JsError α
  deriving Repr

/-- Math.min on JS numbers, written with the executable rational order so that
concrete traces evaluate inside the kernel. -/
def jsMin (a b : ℚ) : ℚ := if a ≤ b then a else b

/-- jsMin agrees with the lattice min on ℚ. -/
theorem jsMin_eq_min (a b : ℚ) : jsMin a b = min a b := by
  unfold jsMin
  split
  · exact (min_eq_left (by assumption)).symm
  · exact (min_eq_right (le_of_not_le (by assumption))).symm

/-- The retry loop of retryWithBackoff, transcribed from retry.ts lines 37-55.
The source iterates attempt = 0..maxRetries; here remaining = maxRetries - attempt,
so the source guard attempt < maxRetries is remaining > 0. On a caught error with
attempts remaining it sleeps for the current delay and then updates
delay := min (delay * backoffMultiplier) maxDelay. -/
def retryAux (fn : Nat → Except JsError α) (mult maxDelay : ℚ) :
    Nat → Nat → ℚ → RetryTrace α
  | attempt, remaining, delay =>
    match fn attempt with
    | .ok v => ⟨attempt + 1, [], .ok v⟩
    | .error e =>
      match remaining with
      | 0 => ⟨attempt + 1, [], .error e⟩
      | r + 1 =>
        let t := retryAux fn mult maxDelay (attempt + 1) r (jsMin (delay * mult) maxDelay)
        ⟨t.attempts, delay :: t.sleeps, t.result⟩

/-- retryWithBackoff from retry.ts: invokes fn up to maxRetries + 1 times,
sleeping with exponential backoff between failed attempts, and rethrows the
last error when all attempts fail. -/
def retryWithBackoff (fn : Nat → Except JsError α) (config : RetryConfig) : RetryTrace α :=
  retryAux fn config.backoffMultiplier config.maxDelay 0 config.maxRetries config.initialDelay

/-- The delay sequence of the spec: delay_0 = d,
delay_(n+1) = min (delay_n * mult) maxDelay. -/
def delaySeq (mult maxDelay : ℚ) (d : ℚ) : Nat → ℚ
  | 0 => d
  | n + 1 => jsMin (delaySeq mult maxDelay d n * mult) maxDelay

/-- ASCII lowercase folding of a character code, modelling the case folding a
case-insensitive regex applies to the ASCII patterns of retry.ts. -/
def lowCode (n : Nat) : Nat := if 65 ≤ n ∧ n ≤ 90 then n + 32 else n

/-- Case-insensitive character comparison (ASCII folding). -/
def charsCI (a b : Char) : Bool := lowCode a.toNat == lowCode b.toNat

/-- Case-insensitive comparison of a pattern with the start of a character list. -/
def startCI : List Char → List Char → Bool
  | [], _ => true
  | _ :: _, [] => false
  | p :: ps, c :: cs => charsCI p c && startCI ps cs

/-- Case-insensitive occurs-anywhere test on character lists. -/
def subCI (pat : List Char) : List Char → Bool
  | [] => pat.isEmpty
  | c :: t => startCI pat (c :: t) || subCI pat t

/-- Case-insensitive containment of a pattern in a string, modelling the
case-insensitive regex substring tests used in retry.ts. -/
def matchesCI (pat s : String) : Bool :=
  subCI pat.toList s.toList

/-- The retryable patterns of isRetryableError (retry.ts lines 64-74), written in
lowercase since every regex there carries the i flag. -/
def retryablePatterns : List String :=
  ["timeout", "network", "connection", "econnrefused", "etimedout",
   "rate limit", "too many requests", "503", "504"]

/-- isRetryableError from retry.ts lines 63-80: some pattern matches the message
or the name of the error. -/
def isRetryableError (e : JsError) : Bool :=
  retryablePatterns.any (fun p => matchesCI p e.message || matchesCI p e.name)

/-! ### Retry lemmas -/

/-- Shifting the start of the delay sequence by one application of the backoff
update advances the sequence by one index. -/
theorem delaySeq_shift (mult maxDelay d : ℚ) :
    ∀ n, delaySeq mult maxDelay (jsMin (d * mult) maxDelay) n =
      delaySeq mult maxDelay d (n + 1) := by
  intro n
  induction n with
  | zero => simp [delaySeq]
  | succ k ih => simp only [delaySeq, ih]

/-- When fn fails at every attempt, the trace of the retry loop from a given
attempt, with a given budget of remaining retries, is fully determined: one more
invocation than remaining retries, delays following the backoff recurrence from
the current delay, and the last error rethrown. -/
theorem retryAux_allFail (fn : Nat → Except JsError α) (errAt : Nat → JsError)
    (hfail : ∀ n, fn n = .error (errAt n)) (mult maxDelay : ℚ) :
    ∀ (remaining attempt : Nat) (delay : ℚ),
      retryAux fn mult maxDelay attempt remaining delay =
        ⟨attempt + remaining + 1,
         (List.range remaining).map (delaySeq mult maxDelay delay),
         .error (errAt (attempt + remaining))⟩ := by
  intro remaining
  induction remaining with
  | zero =>
    intro attempt delay
    simp [retryAux, hfail attempt]
  | succ r ih =>
    intro attempt delay
    rw [retryAux]
    simp only [hfail attempt]
    rw [ih (attempt + 1) (jsMin (delay * mult) maxDelay)]
    have hsl : (List.range (r + 1)).map (delaySeq mult maxDelay delay) =
        delay :: (List.range r).map (delaySeq mult maxDelay (jsMin (delay * mult) maxDelay)) := by
      rw [List.range_succ_eq_map]
      simp only [List.map_cons, List.map_map]
      refine congrArg₂ List.cons rfl ?_
      apply List.map_congr_left
      intro k _
      simp [Function.comp_apply, delaySeq_shift]
    have ha : attempt + 1 + r = attempt + (r + 1) := by omega
    simp only [hsl, ha]

/-- Every entry of the delay sequence is nonnegative and capped by maxDelay, provided
the multiplier is at least 1 and the initial delay lies in [0, maxDelay]. -/
theorem delaySeq_bounds (mult maxDelay d : ℚ) (hm : 1 ≤ mult) (h0 : 0 ≤ d)
    (hd : d ≤ maxDelay) :
    ∀ n, 0 ≤ delaySeq mult maxDelay d n ∧ delaySeq mult maxDelay d n ≤ maxDelay := by
  intro n
  induction n with
  | zero => exact ⟨h0, hd⟩
  | succ k ih =>
    simp only [delaySeq, jsMin_eq_min]
    constructor
    · exact le_min (mul_nonneg ih.1 (le_trans zero_le_one hm)) (le_trans h0 hd)
    · exact min_le_right _ _

/-- The delay sequence is non-decreasing under the same side conditions. -/
theorem delaySeq_mono (mult maxDelay d : ℚ) (hm : 1 ≤ mult) (h0 : 0 ≤ d)
    (hd : d ≤ maxDelay) :
    ∀ n, delaySeq mult maxDelay d n ≤ delaySeq mult maxDelay d (n + 1) := by
  intro n
  have hb := delaySeq_bounds mult maxDelay d hm h0 hd n
  show _ ≤ jsMin _ _
  rw [jsMin_eq_min]
  exact le_min (le_mul_of_one_le_right hb.1 hm) hb.2

/-! ## Circuit breaker (retry.ts, class CircuitBreaker)

The breaker is modelled as a pure transition function on its mutable fields
(failures, lastFailureTime, state) with the clock passed explicitly: a call made
at time now with a wrapped function that succeeds or fails (fnOk) yields the
next breaker data and the observable outcome. rejected means the wrapped
function was not attempted. -/

inductive BreakerState where
  | closed
  | opened
  | halfOpen
  deriving DecidableEq, Repr

structure CircuitBreaker where
  threshold : Nat
  resetTimeout : Nat
  deriving DecidableEq, Repr

structure BreakerData where
  failures : Nat
  lastFailureTime : Option Nat
  state : BreakerState
  deriving DecidableEq, Repr

/-- Fresh breaker fields, as initialized in retry.ts lines 127-129. -/
def BreakerData.initial : BreakerData := ⟨0, none, .closed⟩

inductive ExecResult where
  | rejected
  | succeeded
  | failed
  deriving DecidableEq, Repr

/-- CircuitBreaker.execute from retry.ts lines 136-168, transcribed: when open,
the call is rejected unless resetTimeout has strictly elapsed since the last
failure, in which case the breaker moves to half-open and attempts the call;
a success resets the counter only when in the half-open state; a failure
increments the counter, stamps lastFailureTime, and opens the breaker once the
counter reaches the threshold. -/
def CircuitBreaker.execute (b : CircuitBreaker) (s : BreakerData) (now : Nat)
    (fnOk : Bool) : BreakerData × ExecResult :=
  let gate : Option BreakerData :=
    match s.state, s.lastFailureTime with
    | .opened, some t =>
      if b.resetTimeout < now - t then some { s with state := .halfOpen } else none
    | .opened, none => none
    | _, _ => some s
  match gate with
  | none => (s, .rejected)
  | some s1 =>
    if fnOk then
      (if s1.state = .halfOpen then { s1 with state := .closed, failures := 0 } else s1,
       .succeeded)
    else
      let f := s1.failures + 1
      ({ s1 with
          failures := f
          lastFailureTime := some now
          state := if b.threshold ≤ f then .opened else s1.state },
       .failed)

/-- Folding CircuitBreaker.execute over a sequence of calls, each given as a
pair of the call time and whether the wrapped function would succeed. -/
def runCalls (b : CircuitBreaker) : BreakerData → List (Nat × Bool) → BreakerData
  | s, [] => s
  | s, (t, ok) :: rest => runCalls b (CircuitBreaker.execute b s t ok).1 rest

/-! ### Claim C4 -/

/-- Claim C4, counterexample: with maxRetries = 2, initialDelay = 20, maxDelay = 10
and backoffMultiplier = 2 (a multiplier of at least 1), a permanently failing call
sleeps [20, 10]: the first delay exceeds maxDelay and the sequence decreases, so the
claimed cap and monotonicity fail as stated. -/
theorem retry_delay_cap_counterexample :
    (retryWithBackoff (fun _ => (.error ⟨"Error", "boom"⟩ : Except JsError Unit))
        ⟨2, 20, 10, 2⟩).sleeps = [20, 10]
    ∧ (1 : ℚ) ≤ 2 ∧ ¬ ((20 : ℚ) ≤ 10) ∧ ¬ ((10 : ℚ) ≥ 20) := by
  refine ⟨?_, by norm_num, by norm_num, by norm_num⟩
  norm_num [retryWithBackoff, retryAux, jsMin]

/-- Claim C4 (amended): a permanently failing call through retryWithBackoff is
invoked exactly maxRetries + 1 times, the slept delays follow
delay_0 = initialDelay, delay_(n+1) = min (delay_n * backoffMultiplier) maxDelay,
the last error is rethrown, and when additionally backoffMultiplier is at least 1
and 0 ≤ initialDelay ≤ maxDelay the delay sequence is non-decreasing and capped by
maxDelay (delay_0 itself is not clamped by the code, hence the extra premise). -/
theorem retryWithBackoff_allFail_spec (config : RetryConfig)
    (fn : Nat → Except JsError α) (errAt : Nat → JsError)
    (hfail : ∀ n, fn n = .error (errAt n)) :
    (retryWithBackoff fn config).attempts = config.maxRetries + 1
    ∧ (retryWithBackoff fn config).sleeps =
        (List.range config.maxRetries).map
          (delaySeq config.backoffMultiplier config.maxDelay config.initialDelay)
    ∧ (retryWithBackoff fn config).result = .error (errAt config.maxRetries)
    ∧ (1 ≤ config.backoffMultiplier → 0 ≤ config.initialDelay →
        config.initialDelay ≤ config.maxDelay →
        (∀ n, delaySeq config.backoffMultiplier config.maxDelay config.initialDelay n ≤
            delaySeq config.backoffMultiplier config.maxDelay config.initialDelay (n + 1))
        ∧ (∀ n, delaySeq config.backoffMultiplier config.maxDelay config.initialDelay n ≤
            config.maxDelay)) := by
  have h := retryAux_allFail fn errAt hfail config.backoffMultiplier config.maxDelay
    config.maxRetries 0 config.initialDelay
  rw [retryWithBackoff, h]
  refine ⟨by simp, rfl, by rw [Nat.zero_add], ?_⟩
  intro hm h0 hd
  exact ⟨delaySeq_mono _ _ _ hm h0 hd,
    fun n => (delaySeq_bounds _ _ _ hm h0 hd n).2⟩

/-- Witness for retryWithBackoff_allFail_spec at maxRetries = 2 and a constantly
failing function. -/
theorem retryWithBackoff_allFail_spec_witness :
    (retryWithBackoff (fun _ => (.error ⟨"Error", "timeout"⟩ : Except JsError Unit))
        ⟨2, 1, 10, 2⟩).attempts = 2 + 1 :=
  (retryWithBackoff_allFail_spec ⟨2, 1, 10, 2⟩ _ (fun _ => ⟨"Error", "timeout"⟩)
    (fun _ => rfl)).1

/-! ### Claim C5 -/

/-- Claim C5, counterexample: the error with message unauthorized is classified
non-retryable, yet retryWithBackoff with maxRetries = 2 still invokes the failing
function 3 times and sleeps twice: classification does not cause immediate failure. -/
theorem retry_permanent_error_counterexample :
    isRetryableError ⟨"Error", "unauthorized"⟩ = false
    ∧ (retryWithBackoff (fun _ => (.error ⟨"Error", "unauthorized"⟩ : Except JsError Unit))
        ⟨2, 1, 10, 2⟩).attempts = 3
    ∧ (retryWithBackoff (fun _ => (.error ⟨"Error", "unauthorized"⟩ : Except JsError Unit))
        ⟨2, 1, 10, 2⟩).sleeps.length = 2 := by
  refine ⟨by decide, ?_, ?_⟩ <;> norm_num [retryWithBackoff, retryAux, jsMin]

/-- Claim C5 (amended): retryWithBackoff never consults the error classifier; even a
function whose every failure is classified non-retryable by isRetryableError is
retried with backoff until maxRetries is exhausted (maxRetries + 1 invocations and
maxRetries sleeps), exactly as for retryable errors. isRetryableError is only used
elsewhere (createWorkflowError) to tag WorkflowError.retryable. -/
theorem retryWithBackoff_ignores_classifier (config : RetryConfig)
    (fn : Nat → Except JsError α) (errAt : Nat → JsError)
    (hfail : ∀ n, fn n = .error (errAt n))
    (_hperm : ∀ n, isRetryableError (errAt n) = false) :
    (retryWithBackoff fn config).attempts = config.maxRetries + 1
    ∧ (retryWithBackoff fn config).sleeps.length = config.maxRetries := by
  have h := retryAux_allFail fn errAt hfail config.backoffMultiplier config.maxDelay
    config.maxRetries 0 config.initialDelay
  rw [retryWithBackoff, h]
  refine ⟨by simp, ?_⟩
  rw [List.length_map, List.length_range]

/-- Witness for retryWithBackoff_ignores_classifier at a concrete permanently
failing, non-retryable-classified function. -/
theorem retryWithBackoff_ignores_classifier_witness :
    (retryWithBackoff (fun _ => (.error ⟨"Error", "unauthorized"⟩ : Except JsError Unit))
        ⟨3, 1, 10, 2⟩).attempts = 3 + 1 :=
  (retryWithBackoff_ignores_classifier ⟨3, 1, 10, 2⟩ _
    (fun _ => (⟨"Error", "unauthorized"⟩ : JsError)) (fun _ => rfl)
    (fun _ => by show isRetryableError ⟨"Error", "unauthorized"⟩ = false; decide)).1

/-! ### Claim C6 -/

/-- Claim C6: with threshold 3, three consecutive failures (at any times) open the
breaker with counter 3; a further call within resetTimeout of the last failure is
rejected without attempting the wrapped function, whatever that call would have
done; a call strictly after resetTimeout is attempted as the half-open trial: on
success the breaker closes with counter 0, on failure it reopens with the timeout
window restarted from the trial time. -/
theorem circuitBreaker_threshold3_spec (R t1 t2 t3 t4 t5 : Nat)
    (h4 : t4 - t3 ≤ R) (h5 : R < t5 - t3) :
    runCalls ⟨3, R⟩ BreakerData.initial [(t1, false), (t2, false), (t3, false)] =
      ⟨3, some t3, .opened⟩
    ∧ (∀ ok, CircuitBreaker.execute ⟨3, R⟩ ⟨3, some t3, .opened⟩ t4 ok =
        (⟨3, some t3, .opened⟩, .rejected))
    ∧ CircuitBreaker.execute ⟨3, R⟩ ⟨3, some t3, .opened⟩ t5 true =
        (⟨0, some t3, .closed⟩, .succeeded)
    ∧ CircuitBreaker.execute ⟨3, R⟩ ⟨3, some t3, .opened⟩ t5 false =
        (⟨4, some t5, .opened⟩, .failed) := by
  refine ⟨?_, ?_, ?_, ?_⟩
  · simp [runCalls, CircuitBreaker.execute, BreakerData.initial]
  · intro ok
    simp [CircuitBreaker.execute, Nat.not_lt.mpr h4]
  · simp [CircuitBreaker.execute, h5]
  · simp [CircuitBreaker.execute, h5]

/-- Witness for circuitBreaker_threshold3_spec with resetTimeout 10 and call times
0, 1, 2, 3, 20. -/
theorem circuitBreaker_threshold3_spec_witness :
    runCalls ⟨3, 10⟩ BreakerData.initial [(0, false), (1, false), (2, false)] =
      ⟨3, some 2, .opened⟩
    ∧ (∀ ok, CircuitBreaker.execute ⟨3, 10⟩ ⟨3, some 2, .opened⟩ 3 ok =
        (⟨3, some 2, .opened⟩, .rejected))
    ∧ CircuitBreaker.execute ⟨3, 10⟩ ⟨3, some 2, .opened⟩ 20 true =
        (⟨0, some 2, .closed⟩, .succeeded)
    ∧ CircuitBreaker.execute ⟨3, 10⟩ ⟨3, some 2, .opened⟩ 20 false =
        (⟨4, some 20, .opened⟩, .failed) :=
  circuitBreaker_threshold3_spec 10 0 1 2 3 20 (by decide) (by decide)

/-! ### Claim C7 -/

/-- Claim C7, counterexample: with threshold 3, the call sequence
fail, fail, success, fail contains no run of 3 consecutive failures, yet the
breaker ends opened: a success in the closed state does not reset the failure
counter, so the counter is not a counter of consecutive failures. -/
theorem circuitBreaker_consecutive_counterexample :
    runCalls ⟨3, 1000⟩ BreakerData.initial
      [(0, false), (1, false), (2, true), (3, false)] = ⟨3, some 3, .opened⟩ := by
  decide

/-- Claim C7 (amended): a successful call while the breaker is closed leaves the
breaker data (failure counter included) completely unchanged; only a successful
half-open trial (or an explicit reset) clears the counter, so the breaker opens
once the total number of failures since the last clear reaches the threshold,
even when successes intervene. -/
theorem circuitBreaker_closed_success_no_reset (b : CircuitBreaker) (s : BreakerData)
    (now : Nat) (h : s.state = .closed) :
    CircuitBreaker.execute b s now true = (s, .succeeded) := by
  obtain ⟨f, lt, st⟩ := s
  simp only at h
  subst h
  simp [CircuitBreaker.execute]

/-- Witness for circuitBreaker_closed_success_no_reset at a closed breaker holding
a nonzero failure count. -/
theorem circuitBreaker_closed_success_no_reset_witness :
    CircuitBreaker.execute ⟨3, 10⟩ ⟨2, some 5, .closed⟩ 7 true =
      (⟨2, some 5, .closed⟩, .succeeded) :=
  circuitBreaker_closed_success_no_reset ⟨3, 10⟩ ⟨2, some 5, .closed⟩ 7 rfl

end Sovm

namespace Sovm

/-! ## Workflow data model (types.ts)

The TS interfaces of the workflow are embedded one to one; optional TS fields
become Option fields. JS truthiness checks on optional strings (used by the
nodes for node ids and generated code) are modelled by the truthy test below. -/

inductive WorkflowStep where
  | initialized
  | extracting_design
  | getting_screenshot
  | awaiting_user_input
  | getting_metadata
  | analyzing
  | generating
  | validating
  | updating_section_model
  | completed
  | failed
  deriving DecidableEq, Repr

structure WorkflowOptions where
  updateSectionModel : Option Bool := none
  validateOutput : Option Bool := none
  persistContext : Option Bool := none
  skipScreenshot : Option Bool := none
  strictValidation : Option Bool := none
  deriving DecidableEq, Repr

structure WorkflowInput where
  blockName : String
  figmaUrl : Option String := none
  figmaNodeId : Option String := none
  figmaFileKey : Option String := none
  outputPath : String
  options : Option WorkflowOptions := none
  deriving DecidableEq, Repr

structure DesignContext where
  generatedCode : String
  nodeId : String
  fileName : Option String := none
  timestamp : String
  deriving DecidableEq, Repr

structure Screenshot where
  data : String
  format : String
  timestamp : String
  deriving DecidableEq, Repr

/-! Plain JSON data (as produced by JSON.parse), used for the untyped
structure field of FigmaMetadata. -/

mutual
inductive Json where
  | str (s : String)
  | num (n : Int)
  | bool (b : Bool)
  | null
  | arr (items : JsonItems)
  | obj (fields : JsonFields)
inductive JsonItems where
  | nil
  | cons (v : Json) (rest : JsonItems)
inductive JsonFields where
  | nil
  | cons (k : String) (v : Json) (rest : JsonFields)
end

structure FigmaMetadata where
  nodeId : String
  nodeName : String
  nodeType : String
  «structure» : Json
  timestamp : String

structure FieldDef where
  name : String
  type : String
  label : String
  component : String
  deriving DecidableEq, Repr

structure ContentStructure where
  containerFields : List FieldDef
  itemFields : Option (List FieldDef) := none
  deriving DecidableEq, Repr

structure DesignTokens where
  colors : List String
  typography : List String
  spacing : List String
  deriving DecidableEq, Repr

structure BlockAnalysis where
  blockName : String
  blockType : String
  contentStructure : ContentStructure
  designTokens : DesignTokens
  interactiveElements : List String
  timestamp : String
  deriving DecidableEq, Repr

structure GeneratedFiles where
  css : String
  javascript : String
  model : String
  readme : Option String := none
  deriving DecidableEq, Repr

structure ValidationSummary where
  totalErrors : Int
  totalWarnings : Int
  status : String
  deriving DecidableEq, Repr

structure ValidationResult where
  validated : Bool
  errors : List String
  warnings : List String
  summary : ValidationSummary
  deriving DecidableEq, Repr

structure AwaitingUserInput where
  requestedAt : String
  promptMessage : String
  inputType : String
  deriving DecidableEq, Repr

/-- WorkflowError from types.ts; the optional error field holds the raw JS
Error object attached by createWorkflowError-style constructors. -/
structure WorkflowError where
  step : WorkflowStep
  message : String
  error : Option JsError := none
  timestamp : String
  retryable : Bool
  requiresUserInput : Option Bool := none
  userPrompt : Option String := none
  deriving DecidableEq, Repr

structure WorkflowState where
  input : WorkflowInput
  designContext : Option DesignContext := none
  screenshot : Option Screenshot := none
  userProvidedScreenshot : Option Bool := none
  metadata : Option FigmaMetadata := none
  analysis : Option BlockAnalysis := none
  generatedFiles : Option GeneratedFiles := none
  validation : Option ValidationResult := none
  sectionModelUpdated : Option Bool := none
  currentStep : WorkflowStep
  awaitingUserInput : Option AwaitingUserInput := none
  errors : List WorkflowError := []
  startTime : String
  endTime : Option String := none
  duration : Option Int := none

/-! ## JS helpers -/

/-- JS truthiness of an optional string: present and nonempty. -/
def truthy : Option String → Bool
  | some s => s ≠ ""
  | none => false

/-- The JS expression x or-else d on an optional string (empty string is falsy). -/
def jsOr (o : Option String) (d : String) : String :=
  match o with
  | some s => if s = "" then d else s
  | none => d

/-- Truthiness of an optional boolean option accessed with optional chaining. -/
def optBool (o : Option WorkflowOptions) (f : WorkflowOptions → Option Bool) : Bool :=
  (o.bind f).getD false

/-- Case-insensitive list equality via ASCII folding. -/
def listEqCI : List Char → List Char → Bool
  | [], [] => true
  | a :: as, b :: bs => charsCI a b && listEqCI as bs
  | _, _ => false

/-- Models the comparison s.toLowerCase() === pat for an ASCII pattern. -/
def strEqCI (s pat : String) : Bool := listEqCI s.toList pat.toList

/-! ## MCP tool results and connector environment -/

/-- MCPToolResult from types.ts. -/
structure MCPToolResult (T : Type) where
  success : Bool
  data : Option T := none
  error : Option String := none
  deriving Repr

/-- The data a node actually uses: present exactly when the source guard
(not success or not data) does not fire. -/
def MCPToolResult.value (r : MCPToolResult T) : Option T :=
  if r.success then r.data else none

/-- Options object passed by the generate node to the generation connector. -/
structure GenOptions where
  screenshot : Option String := none
  metadata : Option FigmaMetadata := none
  persistContext : Option Bool := none
  updateSectionModel : Option Bool := none
  validateOutput : Bool

/-- The connector environment of one workflow run: the behavior of the Figma and
EDS connectors (already wrapped as MCPToolResult by mcp-client.ts), the URL
parser, and the clock (ISO timestamps and their millisecond readings). Nodes are
deterministic given this environment. -/
structure Env where
  parseUrl : String → Option (String × String)
  getDesignContext : String → MCPToolResult DesignContext
  getScreenshot : String → MCPToolResult Screenshot
  analyzeBlockStructure : String → Option String → Option FigmaMetadata → MCPToolResult BlockAnalysis
  generateEdsBlock : String → String → String → GenOptions → MCPToolResult GeneratedFiles
  validateBlockOutput : String → String → Bool → MCPToolResult ValidationResult
  nowISO : String
  msOf : String → Int

/-! ## Partial state updates and the LangGraph reducers (workflow.ts lines 25-44)

A node returns a partial update; the executor merges it with replace semantics
for every field except errors, whose reducer appends the update list to the
existing list. awaitingUserInput can be explicitly set to undefined by a node,
hence its doubled Option. -/

structure StateUpdate where
  input : Option WorkflowInput := none
  designContext : Option DesignContext := none
  screenshot : Option Screenshot := none
  userProvidedScreenshot : Option Bool := none
  metadata : Option FigmaMetadata := none
  analysis : Option BlockAnalysis := none
  generatedFiles : Option GeneratedFiles := none
  validation : Option ValidationResult := none
  sectionModelUpdated : Option Bool := none
  currentStep : Option WorkflowStep := none
  awaitingUserInput : Option (Option AwaitingUserInput) := none
  errors : Option (List WorkflowError) := none
  startTime : Option String := none
  endTime : Option String := none
  duration : Option Int := none

/-- Replace an optional field when the update carries it. -/
def upd (new old : Option α) : Option α :=
  match new with
  | some v => some v
  | none => old

/-- Merge a partial update into the state with the reducers of the state
annotation: replace for every field, append for errors. -/
def applyUpdate (s : WorkflowState) (u : StateUpdate) : WorkflowState :=
  { input := u.input.getD s.input
    designContext := upd u.designContext s.designContext
    screenshot := upd u.screenshot s.screenshot
    userProvidedScreenshot := upd u.userProvidedScreenshot s.userProvidedScreenshot
    metadata := upd u.metadata s.metadata
    analysis := upd u.analysis s.analysis
    generatedFiles := upd u.generatedFiles s.generatedFiles
    validation := upd u.validation s.validation
    sectionModelUpdated := upd u.sectionModelUpdated s.sectionModelUpdated
    currentStep := u.currentStep.getD s.currentStep
    awaitingUserInput :=
      match u.awaitingUserInput with
      | some v => v
      | none => s.awaitingUserInput
    errors := s.errors ++ u.errors.getD []
    startTime := u.startTime.getD s.startTime
    endTime := upd u.endTime s.endTime
    duration := upd u.duration s.duration }

end Sovm

namespace Sovm

/-! ## Workflow nodes (nodes.ts)

Each node is transcribed from its source function; it consumes the current state
and the connector environment and returns a partial update. getScreenshot may
instead raise a LangGraph interrupt (nodes.ts lines 580-583), modelled as a
distinct outcome carrying the interrupt payload: on a fresh run no resume value
exists, so the interrupt call throws and the node produces no update at all. -/

/-- The payload handed to the LangGraph interrupt call by getScreenshot. -/
structure InterruptPayload where
  message : String
  options : List String
  deriving DecidableEq, Repr

/-- User input supplied on resume: a raw string or a screenshot object. -/
inductive UserInput where
  | text (s : String)
  | image (data format : String)
  deriving DecidableEq, Repr

inductive ScreenshotOutcome where
  | update (u : StateUpdate)
  | interrupted (payload : InterruptPayload)

/-- initializeWorkflow from nodes.ts: parses the Figma URL when a node id is not
already present (both checks are JS truthiness on optional strings), stamps the
start time, and moves to the extracting_design step. -/
def initializeWorkflow (env : Env) (state : WorkflowState) : StateUpdate :=
  if truthy state.input.figmaUrl && !truthy state.input.figmaNodeId then
    match env.parseUrl (state.input.figmaUrl.getD "") with
    | some (fileKey, nodeId) =>
      if nodeId ≠ "" then
        { input := some { state.input with
            figmaNodeId := some nodeId
            figmaFileKey := some fileKey }
          currentStep := some .extracting_design
          startTime := some env.nowISO
          errors := some [] }
      else
        { currentStep := some .extracting_design
          startTime := some env.nowISO
          errors := some [] }
    | none =>
      { currentStep := some .extracting_design
        startTime := some env.nowISO
        errors := some [] }
  else
    { currentStep := some .extracting_design
      startTime := some env.nowISO
      errors := some [] }

/-- extractDesignContext from nodes.ts: fails fast (non-retryable) without a node
id, calls the design-source connector, fails (retryable) when the call is
unsuccessful, and otherwise stores the design context and routes to the
screenshot step unless skipScreenshot is set. -/
def extractDesignContext (env : Env) (state : WorkflowState) : StateUpdate :=
  if !truthy state.input.figmaNodeId then
    { currentStep := some .failed
      errors := some (state.errors ++
        [{ step := .extracting_design
           message := "No Figma node ID provided"
           timestamp := env.nowISO
           retryable := false }]) }
  else
    let nodeId := state.input.figmaNodeId.getD ""
    let r := env.getDesignContext nodeId
    match r.value with
    | none =>
      { currentStep := some .failed
        errors := some (state.errors ++
          [{ step := .extracting_design
             message := jsOr r.error "Failed to extract design context"
             timestamp := env.nowISO
             retryable := true }]) }
    | some dc =>
      { designContext := some dc
        currentStep := some (if optBool state.input.options (fun o => o.skipScreenshot)
          then .analyzing else .getting_screenshot) }

/-- getScreenshot from nodes.ts: without a node id it skips to analyzing; on a
successful connector call it stores the screenshot; on a failed call it invokes
the LangGraph interrupt, whose return value (only available on a resumed
execution) selects the skip, user-screenshot or fallback branch. -/
def getScreenshot (env : Env) (state : WorkflowState)
    (resumeVal : Option UserInput) : ScreenshotOutcome :=
  if !truthy state.input.figmaNodeId then
    .update { currentStep := some .analyzing }
  else
    let nodeId := state.input.figmaNodeId.getD ""
    let r := env.getScreenshot nodeId
    match r.value with
    | some shot =>
      .update { screenshot := some shot, currentStep := some .analyzing }
    | none =>
      match resumeVal with
      | none =>
        .interrupted
          { message := "Screenshot capture failed: " ++ r.error.getD "undefined" ++
              ". Please provide a screenshot of the Figma design (node: " ++ nodeId ++
              ") to improve block generation accuracy."
            options := ["Provide screenshot URL/base64",
              "Type \"skip\" to continue without it"] }
      | some (.text t) =>
        if strEqCI t "skip" then .update { currentStep := some .analyzing }
        else .update { currentStep := some .analyzing }
      | some (.image d f) =>
        if d ≠ "" then
          .update
            { screenshot := some ⟨d, (if f = "" then "png" else f), env.nowISO⟩
              userProvidedScreenshot := some true
              currentStep := some .analyzing }
        else .update { currentStep := some .analyzing }

/-- analyzeBlockStructure from nodes.ts. -/
def analyzeBlockStructure (env : Env) (state : WorkflowState) : StateUpdate :=
  if !truthy (state.designContext.map (fun dc => dc.generatedCode)) then
    { currentStep := some .failed
      errors := some (state.errors ++
        [{ step := .analyzing
           message := "No design context available for analysis"
           timestamp := env.nowISO
           retryable := false }]) }
  else
    let code := (state.designContext.map (fun dc => dc.generatedCode)).getD ""
    let r := env.analyzeBlockStructure code
      (state.screenshot.map (fun sc => sc.data)) state.metadata
    match r.value with
    | none =>
      { currentStep := some .failed
        errors := some (state.errors ++
          [{ step := .analyzing
             message := jsOr r.error "Block structure analysis failed"
             timestamp := env.nowISO
             retryable := true }]) }
    | some an =>
      { analysis := some { an with blockName := state.input.blockName }
        currentStep := some .generating }

/-- generateEdsBlock from nodes.ts: note that the node hardcodes retryable := true
on a failed generation call and always passes validateOutput := false to the
connector (validation runs as a separate stage). -/
def generateEdsBlock (env : Env) (state : WorkflowState) : StateUpdate :=
  if !truthy (state.designContext.map (fun dc => dc.generatedCode)) then
    { currentStep := some .failed
      errors := some (state.errors ++
        [{ step := .generating
           message := "No design context available for generation"
           timestamp := env.nowISO
           retryable := false }]) }
  else
    let code := (state.designContext.map (fun dc => dc.generatedCode)).getD ""
    let r := env.generateEdsBlock state.input.blockName state.input.outputPath code
      { screenshot := state.screenshot.map (fun sc => sc.data)
        metadata := state.metadata
        persistContext := state.input.options.bind (fun o => o.persistContext)
        updateSectionModel := state.input.options.bind (fun o => o.updateSectionModel)
        validateOutput := false }
    match r.value with
    | none =>
      { currentStep := some .failed
        errors := some (state.errors ++
          [{ step := .generating
             message := jsOr r.error "Block generation failed"
             timestamp := env.nowISO
             retryable := true }]) }
    | some files =>
      { generatedFiles := some files
        currentStep := some (if optBool state.input.options (fun o => o.validateOutput)
          then .validating
          else if optBool state.input.options (fun o => o.updateSectionModel)
          then .updating_section_model
          else .completed) }

/-- validateBlock from nodes.ts: a failed validation call does not fail the
workflow; the node just routes onward, storing the validation result only when
the call succeeded. -/
def validateBlock (env : Env) (state : WorkflowState) : StateUpdate :=
  let blockPath := state.input.outputPath ++ "/" ++ state.input.blockName
  let r := env.validateBlockOutput blockPath state.input.blockName
    (optBool state.input.options (fun o => o.strictValidation))
  match r.value with
  | none =>
    { currentStep := some (if optBool state.input.options (fun o => o.updateSectionModel)
        then .updating_section_model else .completed) }
  | some v =>
    { validation := some v
      currentStep := some (if optBool state.input.options (fun o => o.updateSectionModel)
        then .updating_section_model else .completed) }

/-- completeWorkflow from nodes.ts: stamps end time and duration. -/
def completeWorkflow (env : Env) (state : WorkflowState) : StateUpdate :=
  { currentStep := some .completed
    endTime := some env.nowISO
    duration := some (env.msOf env.nowISO - env.msOf state.startTime) }

/-- handleFailure from nodes.ts: stamps end time and duration on the failed run. -/
def handleFailure (env : Env) (state : WorkflowState) : StateUpdate :=
  { currentStep := some .failed
    endTime := some env.nowISO
    duration := some (env.msOf env.nowISO - env.msOf state.startTime) }

/-- resumeWithUserInput from nodes.ts: interprets the user payload against the
pending awaitingUserInput descriptor; with no pending descriptor it is an
identity update on currentStep. -/
def resumeWithUserInput (env : Env) (state : WorkflowState)
    (userInput : UserInput) : StateUpdate :=
  match state.awaitingUserInput with
  | none => { currentStep := some state.currentStep }
  | some aw =>
    if aw.inputType = "screenshot" then
      match userInput with
      | .text t =>
        if strEqCI t "skip" then
          { awaitingUserInput := some none, currentStep := some .analyzing }
        else
          { awaitingUserInput := some none, currentStep := some .analyzing }
      | .image d f =>
        if d ≠ "" then
          { screenshot := some { data := d, format := f, timestamp := env.nowISO }
            userProvidedScreenshot := some true
            awaitingUserInput := some none
            currentStep := some .analyzing }
        else
          { awaitingUserInput := some none, currentStep := some .analyzing }
    else { currentStep := some state.currentStep }

end Sovm

namespace Sovm

/-! ## Graph execution (workflow.ts)

The compiled LangGraph drives the state through
initialize, extract_design, get_screenshot, analyze, generate, validate and the
terminal complete / fail nodes, with the conditional routers of
createLangGraphWorkflow (lines 91-122): every router sends a FAILED state to the
fail node, and the get_screenshot router additionally ends the run on
AWAITING_USER_INPUT. When the get_screenshot node raises its interrupt, the
in-flight update is discarded and graph.invoke returns the checkpointed state as
of the last completed node, without raising an error. -/

/-- Result of one graph invocation: either the graph ran to an end edge, or it
was suspended by the LangGraph interrupt inside get_screenshot. -/
inductive RunResult where
  | finished (s : WorkflowState)
  | interrupted (s : WorkflowState) (payload : InterruptPayload)

/-- The state graph.invoke hands back to the caller in either case. -/
def RunResult.finalState : RunResult → WorkflowState
  | .finished s => s
  | .interrupted s _ => s

/-- Run the fail node on a state routed to it. -/
def runFail (env : Env) (s : WorkflowState) : WorkflowState :=
  applyUpdate s (handleFailure env s)

/-- Run the complete node. -/
def runComplete (env : Env) (s : WorkflowState) : WorkflowState :=
  applyUpdate s (completeWorkflow env s)

/-- Execute from the validate node onward (validate router: FAILED goes to fail,
anything else to complete). -/
def stepValidate (env : Env) (s : WorkflowState) : WorkflowState :=
  let s1 := applyUpdate s (validateBlock env s)
  if s1.currentStep = .failed then runFail env s1 else runComplete env s1

/-- Execute from the generate node onward. -/
def stepGenerate (env : Env) (s : WorkflowState) : WorkflowState :=
  let s1 := applyUpdate s (generateEdsBlock env s)
  if s1.currentStep = .failed then runFail env s1 else stepValidate env s1

/-- Execute from the analyze node onward. -/
def stepAnalyze (env : Env) (s : WorkflowState) : WorkflowState :=
  let s1 := applyUpdate s (analyzeBlockStructure env s)
  if s1.currentStep = .failed then runFail env s1 else stepGenerate env s1

/-- Execute from the get_screenshot node onward. On interrupt the node update is
not applied and the pre-node state is returned as the suspension snapshot. -/
def stepScreenshot (env : Env) (s : WorkflowState) : RunResult :=
  match getScreenshot env s none with
  | .interrupted p => .interrupted s p
  | .update u =>
    let s1 := applyUpdate s u
    if s1.currentStep = .failed then .finished (runFail env s1)
    else if s1.currentStep = .awaiting_user_input then .finished s1
    else .finished (stepAnalyze env s1)

/-- Execute from the extract_design node onward. -/
def stepExtract (env : Env) (s : WorkflowState) : RunResult :=
  let s1 := applyUpdate s (extractDesignContext env s)
  if s1.currentStep = .failed then .finished (runFail env s1)
  else stepScreenshot env s1

/-- The initial channel values passed to graph.invoke by runWorkflow
(workflow.ts lines 146-151). -/
def initialState (env : Env) (input : WorkflowInput) : WorkflowState :=
  { input := input
    currentStep := .initialized
    errors := []
    startTime := env.nowISO }

/-- One full graph invocation from the start edge. -/
def runGraph (env : Env) (input : WorkflowInput) : RunResult :=
  let s0 := initialState env input
  stepExtract env (applyUpdate s0 (initializeWorkflow env s0))

/-- runWorkflow from workflow.ts: invokes the graph and returns the resulting
state to the caller (the suspension snapshot when the run was interrupted). -/
def runWorkflow (env : Env) (input : WorkflowInput) : WorkflowState :=
  (runGraph env input).finalState

/-! ## Resume (workflow.ts resumeWorkflow, lines 165-192) -/

/-- Outcome of resumeWorkflow: either the no-op branch, which returns the stored
checkpoint values untouched without invoking the graph, or a re-invocation of
the graph with the resume update applied. -/
inductive ResumeOutcome where
  | noop (stored : Option WorkflowState)
  | invoked (result : WorkflowState)

/-- Continuing the graph after the resume update: execution proceeds from the
suspended get_screenshot router onward. -/
def resumeRun (env : Env) (st : WorkflowState) (payload : UserInput) : WorkflowState :=
  let s1 := applyUpdate st (resumeWithUserInput env st payload)
  if s1.currentStep = .failed then runFail env s1
  else if s1.currentStep = .awaiting_user_input then s1
  else stepAnalyze env s1

/-- resumeWorkflow from workflow.ts: loads the checkpoint for the thread and,
unless its currentStep is AWAITING_USER_INPUT, is a no-op returning the stored
values; otherwise it applies resumeWithUserInput and re-invokes the graph. -/
def resumeWorkflow (env : Env) (stored : Option WorkflowState)
    (userInput : UserInput) : ResumeOutcome :=
  match stored with
  | none => .noop none
  | some st =>
    if st.currentStep = .awaiting_user_input then
      .invoked (resumeRun env st userInput)
    else .noop (some st)

end Sovm

namespace Sovm

/-! ## Concrete runs -/

/-- Sample analysis result returned by the generation connector. -/
def sampleAnalysis : BlockAnalysis :=
  ⟨"x", "single", ⟨[], none⟩, ⟨[], [], []⟩, [], "t0"⟩

/-- Sample generated file set. -/
def sampleFiles : GeneratedFiles := ⟨"css", "js", "model", none⟩

/-- Sample validation result. -/
def sampleValidation : ValidationResult := ⟨true, [], [], ⟨0, 0, "PASSED"⟩⟩

/-- Environment in which every connector call succeeds except the screenshot
(visual-reference) call, which fails with a retryable-classified error. -/
def envScreenshotFail : Env :=
  { parseUrl := fun _ => none
    getDesignContext := fun _ => ⟨true, some ⟨"code", "R1", none, "t0"⟩, none⟩
    getScreenshot := fun _ => ⟨false, none, some "timeout"⟩
    analyzeBlockStructure := fun _ _ _ => ⟨true, some sampleAnalysis, none⟩
    generateEdsBlock := fun _ _ _ _ => ⟨true, some sampleFiles, none⟩
    validateBlockOutput := fun _ _ _ => ⟨true, some sampleValidation, none⟩
    nowISO := "2025-01-01T00:00:00.000Z"
    msOf := fun _ => 0 }

/-- Environment in which the generation connector fails with a permanent
(unauthorized) error; everything else succeeds. -/
def envGenUnauthorized : Env :=
  { parseUrl := fun _ => none
    getDesignContext := fun _ => ⟨true, some ⟨"code", "R1", none, "t0"⟩, none⟩
    getScreenshot := fun _ => ⟨true, some ⟨"imgdata", "png", "t0"⟩, none⟩
    analyzeBlockStructure := fun _ _ _ => ⟨true, some sampleAnalysis, none⟩
    generateEdsBlock := fun _ _ _ _ => ⟨false, none, some "unauthorized"⟩
    validateBlockOutput := fun _ _ _ => ⟨true, some sampleValidation, none⟩
    nowISO := "2025-01-01T00:00:00.000Z"
    msOf := fun _ => 0 }

/-- The workflow input of the end-to-end scenarios: name x, reference R1. -/
def inputX : WorkflowInput :=
  { blockName := "x", figmaNodeId := some "R1", outputPath := "./blocks" }

/-! ### Claim C1 -/

/-- Claim C1: when the screenshot call fails with a node id present and
skipScreenshot unset, run returns a suspended state without error, but that
state still carries currentStep = getting_screenshot with awaitingUserInput
unset and no recorded error: the get_screenshot node raises the LangGraph
interrupt before returning any update, so the AWAITING_USER_INPUT step and the
awaitingUserInput descriptor promised by the docs are never written. -/
theorem getScreenshot_failure_run_evaluation :
    (runWorkflow envScreenshotFail inputX).currentStep = .getting_screenshot
    ∧ (runWorkflow envScreenshotFail inputX).currentStep ≠ .awaiting_user_input
    ∧ (runWorkflow envScreenshotFail inputX).awaitingUserInput = none
    ∧ (runWorkflow envScreenshotFail inputX).errors = [] := by
  decide

/-! ### Claim C2 -/

/-- Claim C2: resuming a thread whose stored checkpoint is not at
AWAITING_USER_INPUT is a no-op: the graph is not re-invoked and the stored state
is returned unchanged. -/
theorem resumeWorkflow_noop_spec (env : Env) (st : WorkflowState) (u : UserInput)
    (h : st.currentStep ≠ .awaiting_user_input) :
    resumeWorkflow env (some st) u = .noop (some st) := by
  simp [resumeWorkflow, h]

/-- A stored checkpoint of a completed run. -/
def storedDone : WorkflowState :=
  { input := inputX, currentStep := .completed, startTime := "t0" }

/-- Witness for resumeWorkflow_noop_spec on a completed checkpoint. -/
theorem resumeWorkflow_noop_spec_witness :
    resumeWorkflow envScreenshotFail (some storedDone) (.text "skip") =
      .noop (some storedDone) :=
  resumeWorkflow_noop_spec envScreenshotFail storedDone (.text "skip") (by decide)

/-! ### Claim C3 -/

/-- Claim C3: a run suspended by the get_screenshot interrupt is returned to the
caller with the intermediate marker getting_screenshot as its currentStep — not
COMPLETED, FAILED or AWAITING_USER_INPUT — so the terminal-step invariant fails
on interrupted runs. -/
theorem run_terminal_step_counterexample :
    ¬ ((runWorkflow envScreenshotFail inputX).currentStep = .completed
        ∨ (runWorkflow envScreenshotFail inputX).currentStep = .failed
        ∨ (runWorkflow envScreenshotFail inputX).currentStep = .awaiting_user_input)
    ∧ (runWorkflow envScreenshotFail inputX).currentStep = .getting_screenshot := by
  decide

/-! ### Claim C8 -/

/-- Claim C8, counterexample: on the unauthorized-generation scenario the
workflow reaches FAILED with exactly one error, but that error carries
retryable = true (nodes.ts hardcodes retryable: true for a failed generation
call), not retryable = false as claimed. -/
theorem generate_unauthorized_counterexample :
    (runWorkflow envGenUnauthorized inputX).currentStep = .failed
    ∧ (runWorkflow envGenUnauthorized inputX).errors.map (fun e => e.message) =
        ["unauthorized"]
    ∧ (runWorkflow envGenUnauthorized inputX).errors.map (fun e => e.retryable) = [true]
    ∧ (runWorkflow envGenUnauthorized inputX).errors.map (fun e => e.retryable) ≠ [false] := by
  decide

end Sovm

namespace Sovm

/-- Claim C8 (amended): whenever extraction, screenshot and analysis succeed and
the generation connector call fails (for any reason, an unauthorized permanent
error included), the run ends FAILED with exactly one recorded error, and that
error carries retryable = true: the generate node hardcodes retryable: true
without consulting the error classifier. -/
theorem generate_permanent_failure_spec (env : Env) (input : WorkflowInput)
    (nid : String) (dc : DesignContext) (shot : Screenshot) (an : BlockAnalysis)
    (hnid : input.figmaNodeId = some nid) (hnid2 : nid ≠ "")
    (hdc : (env.getDesignContext nid).value = some dc)
    (hcode : dc.generatedCode ≠ "")
    (hshot : (env.getScreenshot nid).value = some shot)
    (han : (env.analyzeBlockStructure dc.generatedCode (some shot.data) none).value = some an)
    (hgen : (env.generateEdsBlock input.blockName input.outputPath dc.generatedCode
        ⟨some shot.data, none, input.options.bind (fun o => o.persistContext),
         input.options.bind (fun o => o.updateSectionModel), false⟩).value = none) :
    (runWorkflow env input).currentStep = .failed
    ∧ (runWorkflow env input).errors =
        [{ step := .generating
           message := jsOr (env.generateEdsBlock input.blockName input.outputPath
              dc.generatedCode
              ⟨some shot.data, none, input.options.bind (fun o => o.persistContext),
               input.options.bind (fun o => o.updateSectionModel), false⟩).error
             "Block generation failed"
           timestamp := env.nowISO
           retryable := true }] := by
  cases hsk : optBool input.options (fun o => o.skipScreenshot) <;>
    simp [runWorkflow, runGraph, initialState, stepExtract, stepScreenshot, stepAnalyze,
      stepGenerate, stepValidate, runFail, runComplete, initializeWorkflow,
      extractDesignContext, getScreenshot, analyzeBlockStructure, generateEdsBlock,
      validateBlock, completeWorkflow, handleFailure, applyUpdate, upd, truthy,
      hnid, hnid2, hdc, hcode, hshot, han, hgen, hsk, RunResult.finalState]

/-- Witness for generate_permanent_failure_spec on the concrete unauthorized
scenario. -/
theorem generate_permanent_failure_spec_witness :
    (runWorkflow envGenUnauthorized inputX).currentStep = .failed :=
  (generate_permanent_failure_spec envGenUnauthorized inputX "R1"
    ⟨"code", "R1", none, "t0"⟩ ⟨"imgdata", "png", "t0"⟩ sampleAnalysis
    rfl (by decide) rfl (by decide) rfl rfl rfl).1

/-! ### Claim C10 -/

/-- Claim C10: a failed validation connector call does not fail the workflow and
records no error: the validate node returns only a currentStep update
(updating_section_model or completed according to the updateSectionModel
option), leaving validation unset, and the run then passes through the complete
node and ends COMPLETED with the error list unchanged. -/
theorem validate_failure_continues (env : Env) (s : WorkflowState)
    (hval : (env.validateBlockOutput (s.input.outputPath ++ "/" ++ s.input.blockName)
        s.input.blockName (optBool s.input.options (fun o => o.strictValidation))).value
      = none) :
    validateBlock env s =
      { currentStep := some (if optBool s.input.options (fun o => o.updateSectionModel)
          then .updating_section_model else .completed) }
    ∧ (stepValidate env s).currentStep = .completed
    ∧ (stepValidate env s).validation = s.validation
    ∧ (stepValidate env s).errors = s.errors := by
  cases hu : optBool s.input.options (fun o => o.updateSectionModel) <;>
    simp [validateBlock, stepValidate, runComplete, runFail, completeWorkflow,
      handleFailure, applyUpdate, upd, hval, hu]

/-- Environment whose validation connector call fails (transient error). -/
def envValFail : Env :=
  { parseUrl := fun _ => none
    getDesignContext := fun _ => ⟨true, some ⟨"code", "R1", none, "t0"⟩, none⟩
    getScreenshot := fun _ => ⟨true, some ⟨"imgdata", "png", "t0"⟩, none⟩
    analyzeBlockStructure := fun _ _ _ => ⟨true, some sampleAnalysis, none⟩
    generateEdsBlock := fun _ _ _ _ => ⟨true, some sampleFiles, none⟩
    validateBlockOutput := fun _ _ _ => ⟨false, none, some "ECONNREFUSED"⟩
    nowISO := "2025-01-01T00:00:00.000Z"
    msOf := fun _ => 0 }

/-- A state entering the validate stage. -/
def sValidating : WorkflowState :=
  { input := inputX
    designContext := some ⟨"code", "R1", none, "t0"⟩
    screenshot := some ⟨"imgdata", "png", "t0"⟩
    generatedFiles := some sampleFiles
    currentStep := .validating
    startTime := "t0" }

/-- Witness for validate_failure_continues on the concrete failing validation. -/
theorem validate_failure_continues_witness :
    (stepValidate envValFail sValidating).currentStep = .completed :=
  (validate_failure_continues envValFail sValidating rfl).2.1

end Sovm

namespace Sovm

/-! ## State persistence (persistence.ts, StatePersistence.saveState / loadState)

saveState writes JSON.stringify(state) to disk and loadState returns
JSON.parse of the file contents. This is modelled as a round-trip function on
the runtime JS value of the state: JsVal is the shape of a JS runtime value
(undefined and Error instances included), reflectState gives the runtime value
of a WorkflowState, and jsonRoundTrip is JSON.parse composed with
JSON.stringify: object fields holding undefined are dropped, undefined array
items become null, and an Error instance serializes as the empty object since
its message and stack are non-enumerable. Deep equality of JS values is
equality of JsVal; note assert-style deep equality distinguishes an Error
instance from a plain empty object, as the errorObj constructor does. -/

mutual
inductive JsVal where
  | str (s : String)
  | num (n : Int)
  | bool (b : Bool)
  | null
  | undef
  | arr (items : JsItems)
  | obj (fields : JsFields)
  | errorObj (name message : String)
inductive JsItems where
  | nil
  | cons (v : JsVal) (rest : JsItems)
inductive JsFields where
  | nil
  | cons (k : String) (v : JsVal) (rest : JsFields)
end

def isUndef : JsVal → Bool
  | .undef => true
  | _ => false

mutual
def jsonRoundTrip : JsVal → JsVal
  | .str s => .str s
  | .num n => .num n
  | .bool b => .bool b
  | .null => .null
  | .undef => .null
  | .arr items => .arr (rtItems items)
  | .obj fs => .obj (rtFields fs)
  | .errorObj _ _ => .obj .nil
def rtItems : JsItems → JsItems
  | .nil => .nil
  | .cons v rest => .cons (jsonRoundTrip v) (rtItems rest)
def rtFields : JsFields → JsFields
  | .nil => .nil
  | .cons k v rest =>
    if isUndef v then rtFields rest
    else .cons k (jsonRoundTrip v) (rtFields rest)
end

/-! JSON-safe JS values: no undefined and no Error instances anywhere. -/

mutual
def jsonSafe : JsVal → Bool
  | .str _ => true
  | .num _ => true
  | .bool _ => true
  | .null => true
  | .undef => false
  | .arr items => safeItems items
  | .obj fs => safeFields fs
  | .errorObj _ _ => false
def safeItems : JsItems → Bool
  | .nil => true
  | .cons v rest => jsonSafe v && safeItems rest
def safeFields : JsFields → Bool
  | .nil => true
  | .cons _ v rest => jsonSafe v && safeFields rest
end

theorem safe_not_undef (v : JsVal) (h : jsonSafe v = true) : isUndef v = false := by
  cases v <;> simp_all [jsonSafe, isUndef]

/-! The JSON round trip is the identity on JSON-safe values. -/

mutual
theorem rt_of_safe : (v : JsVal) → jsonSafe v = true → jsonRoundTrip v = v
  | .str _, _ => rfl
  | .num _, _ => rfl
  | .bool _, _ => rfl
  | .null, _ => rfl
  | .undef, h => by simp [jsonSafe] at h
  | .arr items, h => by
    rw [jsonRoundTrip, rtItems_of_safe items (by simpa [jsonSafe] using h)]
  | .obj fs, h => by
    rw [jsonRoundTrip, rtFields_of_safe fs (by simpa [jsonSafe] using h)]
  | .errorObj _ _, h => by simp [jsonSafe] at h
theorem rtItems_of_safe : (xs : JsItems) → safeItems xs = true → rtItems xs = xs
  | .nil, _ => rfl
  | .cons v rest, h => by
    have h1 : jsonSafe v = true ∧ safeItems rest = true := by
      simpa [safeItems, Bool.and_eq_true] using h
    rw [rtItems, rt_of_safe v h1.1, rtItems_of_safe rest h1.2]
theorem rtFields_of_safe : (fs : JsFields) → safeFields fs = true → rtFields fs = fs
  | .nil, _ => rfl
  | .cons k v rest, h => by
    have h1 : jsonSafe v = true ∧ safeFields rest = true := by
      simpa [safeFields, Bool.and_eq_true] using h
    rw [rtFields, safe_not_undef v h1.1, rt_of_safe v h1.1, rtFields_of_safe rest h1.2]
    simp
end

/-! ### Reflection of WorkflowState into its JS runtime value -/

def fieldsOf : List (String × JsVal) → JsFields
  | [] => .nil
  | (k, v) :: rest => .cons k v (fieldsOf rest)

def itemsOf : List JsVal → JsItems
  | [] => .nil
  | v :: rest => .cons v (itemsOf rest)

/-- An optional TS field: absent when the Option is none (JSON.stringify drops
absent and undefined-valued properties alike). -/
def optField (k : String) : Option JsVal → List (String × JsVal)
  | none => []
  | some v => [(k, v)]

/-- The string value of each WorkflowStep enum member (types.ts). -/
def stepString : WorkflowStep → String
  | .initialized => "initialized"
  | .extracting_design => "extracting_design"
  | .getting_screenshot => "getting_screenshot"
  | .awaiting_user_input => "awaiting_user_input"
  | .getting_metadata => "getting_metadata"
  | .analyzing => "analyzing"
  | .generating => "generating"
  | .validating => "validating"
  | .updating_section_model => "updating_section_model"
  | .completed => "completed"
  | .failed => "failed"

mutual
def jsonToVal : Json → JsVal
  | .str s => .str s
  | .num n => .num n
  | .bool b => .bool b
  | .null => .null
  | .arr items => .arr (jsonItemsToVal items)
  | .obj fs => .obj (jsonFieldsToVal fs)
def jsonItemsToVal : JsonItems → JsItems
  | .nil => .nil
  | .cons v rest => .cons (jsonToVal v) (jsonItemsToVal rest)
def jsonFieldsToVal : JsonFields → JsFields
  | .nil => .nil
  | .cons k v rest => .cons k (jsonToVal v) (jsonFieldsToVal rest)
end

def reflectOptions (o : WorkflowOptions) : JsVal :=
  .obj (fieldsOf (optField "updateSectionModel" (o.updateSectionModel.map .bool)
    ++ optField "validateOutput" (o.validateOutput.map .bool)
    ++ optField "persistContext" (o.persistContext.map .bool)
    ++ optField "skipScreenshot" (o.skipScreenshot.map .bool)
    ++ optField "strictValidation" (o.strictValidation.map .bool)))

def reflectInput (i : WorkflowInput) : JsVal :=
  .obj (fieldsOf ([("blockName", .str i.blockName)]
    ++ optField "figmaUrl" (i.figmaUrl.map .str)
    ++ optField "figmaNodeId" (i.figmaNodeId.map .str)
    ++ optField "figmaFileKey" (i.figmaFileKey.map .str)
    ++ [("outputPath", .str i.outputPath)]
    ++ optField "options" (i.options.map reflectOptions)))

def reflectDesignContext (dc : DesignContext) : JsVal :=
  .obj (fieldsOf ([("generatedCode", .str dc.generatedCode), ("nodeId", .str dc.nodeId)]
    ++ optField "fileName" (dc.fileName.map .str)
    ++ [("timestamp", .str dc.timestamp)]))

def reflectScreenshot (sc : Screenshot) : JsVal :=
  .obj (fieldsOf [("data", .str sc.data), ("format", .str sc.format),
    ("timestamp", .str sc.timestamp)])

def reflectMetadata (m : FigmaMetadata) : JsVal :=
  .obj (fieldsOf [("nodeId", .str m.nodeId), ("nodeName", .str m.nodeName),
    ("nodeType", .str m.nodeType), ("structure", jsonToVal m.«structure»),
    ("timestamp", .str m.timestamp)])

def reflectFieldDef (f : FieldDef) : JsVal :=
  .obj (fieldsOf [("name", .str f.name), ("type", .str f.type),
    ("label", .str f.label), ("component", .str f.component)])

def reflectStrList (xs : List String) : JsVal :=
  .arr (itemsOf (xs.map .str))

def reflectAnalysis (a : BlockAnalysis) : JsVal :=
  .obj (fieldsOf [("blockName", .str a.blockName), ("blockType", .str a.blockType),
    ("contentStructure", .obj (fieldsOf
      ([("containerFields",
          .arr (itemsOf (a.contentStructure.containerFields.map reflectFieldDef)))]
        ++ optField "itemFields" (a.contentStructure.itemFields.map
            (fun l => .arr (itemsOf (l.map reflectFieldDef))))))),
    ("designTokens", .obj (fieldsOf [("colors", reflectStrList a.designTokens.colors),
      ("typography", reflectStrList a.designTokens.typography),
      ("spacing", reflectStrList a.designTokens.spacing)])),
    ("interactiveElements", reflectStrList a.interactiveElements),
    ("timestamp", .str a.timestamp)])

def reflectFiles (g : GeneratedFiles) : JsVal :=
  .obj (fieldsOf ([("css", .str g.css), ("javascript", .str g.javascript),
    ("model", .str g.model)] ++ optField "readme" (g.readme.map .str)))

def reflectValidation (v : ValidationResult) : JsVal :=
  .obj (fieldsOf [("validated", .bool v.validated),
    ("errors", reflectStrList v.errors), ("warnings", reflectStrList v.warnings),
    ("summary", .obj (fieldsOf [("totalErrors", .num v.summary.totalErrors),
      ("totalWarnings", .num v.summary.totalWarnings),
      ("status", .str v.summary.status)]))])

def reflectAwaiting (a : AwaitingUserInput) : JsVal :=
  .obj (fieldsOf [("requestedAt", .str a.requestedAt),
    ("promptMessage", .str a.promptMessage), ("inputType", .str a.inputType)])

/-- The runtime value of a WorkflowError; its optional error field holds an
actual Error instance. -/
def reflectError (e : WorkflowError) : JsVal :=
  .obj (fieldsOf ([("step", .str (stepString e.step)), ("message", .str e.message)]
    ++ optField "error" (e.error.map (fun er => .errorObj er.name er.message))
    ++ [("timestamp", .str e.timestamp), ("retryable", .bool e.retryable)]
    ++ optField "requiresUserInput" (e.requiresUserInput.map .bool)
    ++ optField "userPrompt" (e.userPrompt.map .str)))

/-- The runtime value of a WorkflowState, field for field. -/
def reflectState (s : WorkflowState) : JsVal :=
  .obj (fieldsOf ([("input", reflectInput s.input)]
    ++ optField "designContext" (s.designContext.map reflectDesignContext)
    ++ optField "screenshot" (s.screenshot.map reflectScreenshot)
    ++ optField "userProvidedScreenshot" (s.userProvidedScreenshot.map .bool)
    ++ optField "metadata" (s.metadata.map reflectMetadata)
    ++ optField "analysis" (s.analysis.map reflectAnalysis)
    ++ optField "generatedFiles" (s.generatedFiles.map reflectFiles)
    ++ optField "validation" (s.validation.map reflectValidation)
    ++ optField "sectionModelUpdated" (s.sectionModelUpdated.map .bool)
    ++ [("currentStep", .str (stepString s.currentStep))]
    ++ optField "awaitingUserInput" (s.awaitingUserInput.map reflectAwaiting)
    ++ [("errors", .arr (itemsOf (s.errors.map reflectError)))]
    ++ [("startTime", .str s.startTime)]
    ++ optField "endTime" (s.endTime.map .str)
    ++ optField "duration" (s.duration.map .num)))

/-- saveState immediately followed by loadState on the produced file: the state
passes through JSON.stringify and JSON.parse. -/
def StatePersistence.saveThenLoad (s : WorkflowState) : JsVal :=
  jsonRoundTrip (reflectState s)

end Sovm

namespace Sovm

/-! ### Safety of the reflected state -/

theorem safeFields_fieldsOf (l : List (String × JsVal)) :
    safeFields (fieldsOf l) = l.all (fun kv => jsonSafe kv.2) := by
  induction l with
  | nil => rfl
  | cons kv rest ih =>
    obtain ⟨k, v⟩ := kv
    simp [fieldsOf, safeFields, ih]

theorem safeItems_itemsOf (l : List JsVal) :
    safeItems (itemsOf l) = l.all jsonSafe := by
  induction l with
  | nil => rfl
  | cons v rest ih => simp [itemsOf, safeItems, ih]

@[simp] theorem jsonSafe_str (s : String) : jsonSafe (.str s) = true := rfl

@[simp] theorem jsonSafe_num (n : Int) : jsonSafe (.num n) = true := rfl

@[simp] theorem jsonSafe_bool (b : Bool) : jsonSafe (.bool b) = true := rfl

@[simp] theorem jsonSafe_null : jsonSafe .null = true := rfl

@[simp] theorem jsonSafe_obj_fieldsOf (l : List (String × JsVal)) :
    jsonSafe (.obj (fieldsOf l)) = l.all (fun kv => jsonSafe kv.2) := by
  rw [jsonSafe, safeFields_fieldsOf]

@[simp] theorem jsonSafe_arr_itemsOf (l : List JsVal) :
    jsonSafe (.arr (itemsOf l)) = l.all jsonSafe := by
  rw [jsonSafe, safeItems_itemsOf]

@[simp] theorem optField_none (k : String) : optField k none = [] := rfl

@[simp] theorem all_optField (k : String) (o : Option α) (f : α → JsVal)
    (h : ∀ x, jsonSafe (f x) = true) :
    (optField k (o.map f)).all (fun kv => jsonSafe kv.2) = true := by
  cases o <;> simp [optField, h]

mutual
theorem jsonToVal_safe : (j : Json) → jsonSafe (jsonToVal j) = true
  | .str _ => rfl
  | .num _ => rfl
  | .bool _ => rfl
  | .null => rfl
  | .arr items => by rw [jsonToVal, jsonSafe, jsonItemsToVal_safe items]
  | .obj fs => by rw [jsonToVal, jsonSafe, jsonFieldsToVal_safe fs]
theorem jsonItemsToVal_safe : (xs : JsonItems) → safeItems (jsonItemsToVal xs) = true
  | .nil => rfl
  | .cons v rest => by
    rw [jsonItemsToVal, safeItems, jsonToVal_safe v, jsonItemsToVal_safe rest]
    rfl
theorem jsonFieldsToVal_safe : (fs : JsonFields) → safeFields (jsonFieldsToVal fs) = true
  | .nil => rfl
  | .cons k v rest => by
    rw [jsonFieldsToVal, safeFields, jsonToVal_safe v, jsonFieldsToVal_safe rest]
    rfl
end

@[simp] theorem reflectOptions_safe (o : WorkflowOptions) :
    jsonSafe (reflectOptions o) = true := by
  simp [reflectOptions, List.all_append]

@[simp] theorem reflectInput_safe (i : WorkflowInput) :
    jsonSafe (reflectInput i) = true := by
  simp [reflectInput, List.all_append]

@[simp] theorem reflectDesignContext_safe (dc : DesignContext) :
    jsonSafe (reflectDesignContext dc) = true := by
  simp [reflectDesignContext, List.all_append]

@[simp] theorem reflectScreenshot_safe (sc : Screenshot) :
    jsonSafe (reflectScreenshot sc) = true := by
  simp [reflectScreenshot]

@[simp] theorem reflectMetadata_safe (m : FigmaMetadata) :
    jsonSafe (reflectMetadata m) = true := by
  simp [reflectMetadata, jsonToVal_safe]

@[simp] theorem reflectFieldDef_safe (f : FieldDef) :
    jsonSafe (reflectFieldDef f) = true := by
  simp [reflectFieldDef]

@[simp] theorem reflectStrList_safe (xs : List String) :
    jsonSafe (reflectStrList xs) = true := by
  simp [reflectStrList, List.all_map]

@[simp] theorem reflectAnalysis_safe (a : BlockAnalysis) :
    jsonSafe (reflectAnalysis a) = true := by
  simp [reflectAnalysis, List.all_append, List.all_map]

@[simp] theorem reflectFiles_safe (g : GeneratedFiles) :
    jsonSafe (reflectFiles g) = true := by
  simp [reflectFiles, List.all_append]

@[simp] theorem reflectValidation_safe (v : ValidationResult) :
    jsonSafe (reflectValidation v) = true := by
  simp [reflectValidation, List.all_append]

@[simp] theorem reflectAwaiting_safe (a : AwaitingUserInput) :
    jsonSafe (reflectAwaiting a) = true := by
  simp [reflectAwaiting]

/-- A WorkflowError whose optional error field is unset reflects to a JSON-safe
value; with the field set, the reflected value holds an Error instance. -/
theorem reflectError_safe (e : WorkflowError) (he : e.error = none) :
    jsonSafe (reflectError e) = true := by
  simp [reflectError, he, List.all_append]

/-! ### Claim C9 -/

/-- Claim C9 (amended): for every WorkflowState whose recorded errors carry no
raw Error object in their optional error field — as is the case for every error
the workflow nodes construct — saveState followed by loadState returns a value
deep-equal to the saved state, error-list order and contents included. The
restriction is forced: an Error instance serializes as an empty object under
JSON.stringify, so it does not survive the round trip. -/
theorem saveThenLoad_roundtrip (s : WorkflowState)
    (h : ∀ e ∈ s.errors, e.error = none) :
    StatePersistence.saveThenLoad s = reflectState s := by
  apply rt_of_safe
  simp [reflectState, StatePersistence.saveThenLoad, List.all_append, List.all_map,
    List.all_eq_true]
  intro e he
  exact reflectError_safe e (h e he)

/-- Witness for saveThenLoad_roundtrip on a concrete completed state. -/
theorem saveThenLoad_roundtrip_witness :
    StatePersistence.saveThenLoad storedDone = reflectState storedDone :=
  saveThenLoad_roundtrip storedDone (by intro e he; simp [storedDone] at he)

/-- Lookup of an object field of a JS value. -/
def getField : JsFields → String → Option JsVal
  | .nil, _ => none
  | .cons k v rest, key => if k = key then some v else getField rest key

def probe (v : JsVal) (k : String) : Option JsVal :=
  match v with
  | .obj fs => getField fs k
  | _ => none

def headItem : JsVal → Option JsVal
  | .arr (.cons v _) => some v
  | _ => none

/-- The error field of the first recorded error of a state value. -/
def errProbe (v : JsVal) : Option JsVal :=
  (probe v "errors").bind (fun e => (headItem e).bind (fun e0 => probe e0 "error"))

/-- A state holding one WorkflowError with an attached Error instance, as
createWorkflowError in retry.ts produces. -/
def sWithErrObj : WorkflowState :=
  { input := inputX
    currentStep := .failed
    errors := [{ step := .generating
                 message := "boom"
                 error := some ⟨"Error", "boom"⟩
                 timestamp := "t0"
                 retryable := false }]
    startTime := "t0" }

/-- Claim C9, counterexample: for a state whose error list holds an Error
instance in the error field, save followed by load is not deep-equal to the
saved state: the saved value has Error("boom") there, the loaded value a plain
empty object. -/
theorem saveThenLoad_error_counterexample :
    errProbe (reflectState sWithErrObj) = some (.errorObj "Error" "boom")
    ∧ errProbe (StatePersistence.saveThenLoad sWithErrObj) = some (.obj .nil)
    ∧ StatePersistence.saveThenLoad sWithErrObj ≠ reflectState sWithErrObj := by
  refine ⟨rfl, rfl, ?_⟩
  intro heq
  have h2 : errProbe (StatePersistence.saveThenLoad sWithErrObj) =
      errProbe (reflectState sWithErrObj) := by rw [heq]
  rw [show errProbe (StatePersistence.saveThenLoad sWithErrObj) = some (.obj .nil) from rfl,
    show errProbe (reflectState sWithErrObj) = some (.errorObj "Error" "boom") from rfl] at h2
  exact JsVal.noConfusion (Option.some.inj h2)

end Sovm
